import Mathlib

/-!
Verification of the TripplannerBot tool/response-normalization core.

Shallow embedding of `src/chatCallback.py` and `src/chatTools.py`:
Python dictionaries become association lists over a dynamic value type,
strings become `String` or `List Char`, JSON numbers are idealized as `Int`,
and the outbound HTTP calls of each function are made explicit as a trace.
-/

/-- Dynamic Python value, covering the shapes the callback interceptor
manipulates: strings, numbers, `None`, lists and string-keyed dicts. -/
inductive PyVal : Type where
  | str : String → PyVal
  | int : Int → PyVal
  | pynone : PyVal
  | list : List PyVal → PyVal
  | dict : List (String × PyVal) → PyVal

/-- Python `d.get(k, None)`: first binding of `k`, if any. -/
def dictGet : List (String × PyVal) → String → Option PyVal
  | [], _ => none
  | (k', v) :: rest, k => if k' = k then some v else dictGet rest k

/-- Python `d[k] = v`: replace the binding of `k` in place (a Python dict
holds each key once; replacing the first binding models this), appending
when the key is absent. -/
def dictSet : List (String × PyVal) → String → PyVal → List (String × PyVal)
  | [], k, v => [(k, v)]
  | (k', v') :: rest, k, v => if k' = k then (k, v) :: rest else (k', v') :: dictSet rest k v

/-- Python `x is None` on an embedded value. -/
def PyVal.isNone : PyVal → Bool
  | PyVal.pynone => true
  | _ => false

/-- Field lookup on a value: `dictGet` when the value is a dict, nothing
otherwise. -/
def PyVal.get : PyVal → String → Option PyVal
  | PyVal.dict kvs, k => dictGet kvs k
  | _, _ => none

/-- Embedding of `SimpleCallback.on_tool_end` (src/chatCallback.py, lines
157-173).  State is the streamlit session message list; the function returns
the new message list and the value handed back to the agent.  When `output`
is a dict whose `geocode_points` entry is not `None`, a one-key record holding
a copy of that entry is appended to the messages, the field is overwritten
with the empty string, and the mutated dict is returned.  Otherwise the event
is forwarded unmodified (the langchain base handler is a no-op pass-through,
modelled as the identity on the event). -/
def SimpleCallback.on_tool_end (messages : List PyVal) (output : PyVal) :
    List PyVal × PyVal :=
  match output with
  | PyVal.dict kvs =>
    match dictGet kvs "geocode_points" with
    | some v =>
      if v.isNone then (messages, output)
      else
        (messages ++ [PyVal.dict [("geocode_points", v)]],
         PyVal.dict (dictSet kvs "geocode_points" (PyVal.str "")))
    | none => (messages, output)
  | _ => (messages, output)

/-- Itinerary step as parsed from the routing provider's JSON
(`resourceSets[0].resources[0].routeLegs[0].itineraryItems[]`): the
`instruction.text` string and the `maneuverPoint.coordinates` pair, with
JSON numbers idealized as integers. -/
structure ItineraryItem : Type where
  instruction : String
  maneuverPoint : List Int

/-- Route tool envelope (src/chatTools.py line 222): the joined instruction
text and the parallel maneuver-point list. -/
structure RouteEnvelope : Type where
  output : String
  geocode_points : List (List Int)

/-- Embedding of the extraction loop of `get_route` (src/chatTools.py lines
216-221): one pass over `itineraryItems` appending, per item and in order,
the "- "-prefixed instruction text to `directions` and the maneuver
coordinates to `geocode_points`. -/
def extractItinerary : List ItineraryItem → List String × List (List Int)
  | [] => ([], [])
  | item :: rest =>
    (("- " ++ item.instruction) :: (extractItinerary rest).1,
     item.maneuverPoint :: (extractItinerary rest).2)

/-- Envelope built by a successful `get_route` from the parsed itinerary
items (src/chatTools.py line 222): directions joined by newlines,
coordinates kept as a list. -/
def get_route_success (items : List ItineraryItem) : RouteEnvelope :=
  { output := String.intercalate "\n" (extractItinerary items).1,
    geocode_points := (extractItinerary items).2 }

/-- Helper for the Python substring test: does `hay` start with `needle`? -/
def startsWithL : List Char → List Char → Bool
  | _, [] => true
  | [], _ :: _ => false
  | c :: cs, d :: ds => c == d && startsWithL cs ds

/-- Python `needle in hay` (contiguous substring) on character lists. -/
def containsL : List Char → List Char → Bool
  | [], needle => needle.isEmpty
  | c :: cs, needle => startsWithL (c :: cs) needle || containsL cs needle

/-- Embedding of `RouteRetriever.detect_transportation_mode`
(src/chatTools.py lines 179-190): lowercase the input (the source's bare
`strip()` call discards its result and is a no-op; all keywords are ASCII,
where `Char.toLower` agrees with Python `str.lower`) and test substrings in
the source's priority order, defaulting to Driving. -/
def detect_transportation_mode (transportation_mode : List Char) : List Char :=
  let m := transportation_mode.map Char.toLower
  if containsL m "foot".toList || containsL m "walk".toList then "Walking".toList
  else if containsL m "cycle".toList then "bicycle".toList
  else if containsL m "public".toList || containsL m "bus".toList
      || containsL m "train".toList || containsL m "transit".toList then "Transit".toList
  else "Driving".toList

/-- Uppercase hexadecimal digit for a value below 16, as Python's
`urllib.parse.quote` emits. -/
def hexDigit (n : Nat) : Char :=
  if n < 10 then Char.ofNat ('0'.toNat + n) else Char.ofNat ('A'.toNat + (n - 10))

/-- Percent-encoding of a single byte: `%XX` with uppercase hex. -/
def percentByte (b : Nat) : List Char :=
  ['%', hexDigit (b / 16), hexDigit (b % 16)]

/-- UTF-8 byte sequence of a character's code point, as Python encodes a
string before percent-encoding it. -/
def utf8Bytes (c : Char) : List Nat :=
  let n := c.toNat
  if n < 0x80 then [n]
  else if n < 0x800 then
    [0xC0 ||| (n >>> 6), 0x80 ||| (n &&& 0x3F)]
  else if n < 0x10000 then
    [0xE0 ||| (n >>> 12), 0x80 ||| ((n >>> 6) &&& 0x3F), 0x80 ||| (n &&& 0x3F)]
  else
    [0xF0 ||| (n >>> 18), 0x80 ||| ((n >>> 12) &&& 0x3F),
     0x80 ||| ((n >>> 6) &&& 0x3F), 0x80 ||| (n &&& 0x3F)]

/-- Characters `urllib.parse.quote` never encodes: ASCII letters, digits and
`_.-~` (the call in `get_route` passes `safe=''`, so nothing else is safe). -/
def pyUnreserved (c : Char) : Bool :=
  c.isAlpha || c.isDigit || c == '_' || c == '.' || c == '-' || c == '~'

/-- Embedding of `urllib.parse.quote(loc, safe='')` on one character. -/
def pyQuoteChar (c : Char) : List Char :=
  if pyUnreserved c then [c] else (utf8Bytes c).flatMap percentByte

/-- Embedding of `urllib.parse.quote(loc, safe='')` (src/chatTools.py
line 200). -/
def pyQuote (s : List Char) : List Char :=
  s.flatMap pyQuoteChar

/-- The `f"wp.{i}=" + encoded_location` fragment of the waypoint loop
(src/chatTools.py lines 202 and 204). -/
def wpParam (i : Nat) (loc : List Char) : List Char :=
  "wp.".toList ++ (toString i).toList ++ ['='] ++ pyQuote loc

/-- Embedding of the waypoint loop of `get_route` (src/chatTools.py lines
199-204): the first waypoint is appended bare, every later one with a
leading `&`. -/
def addWaypoints : Nat → List Char → List (List Char) → List Char
  | _, route_url, [] => route_url
  | i, route_url, loc :: rest =>
    addWaypoints (i + 1)
      (if i = 0 then route_url ++ wpParam i loc else route_url ++ '&' :: wpParam i loc) rest

/-- Embedding of the URL construction of `get_route` (src/chatTools.py lines
197-206): `ROUTE_URL` with the mode as path segment, the waypoint loop, then
`&key=` and the credential. -/
def get_route_url (locations : List (List Char)) (mode : List Char) (key : List Char) :
    List Char :=
  addWaypoints 0 ("http://dev.virtualearth.net/REST/V1/Routes/".toList ++ mode ++ ['?'])
      locations
    ++ "&key=".toList ++ key

/-- Join with `&` separators; spec-side rendering of a query string. -/
def joinAmp : List (List Char) → List Char
  | [] => []
  | [x] => x
  | x :: y :: rest => x ++ '&' :: joinAmp (y :: rest)

/-- Modelled from the spec's words for comparison with `get_route_url`: each
location URL-encoded as successive `wp.0`, `wp.1`, ... parameters in input
order. -/
def waypointQuerySpec (locations : List (List Char)) : List Char :=
  joinAmp (locations.enum.map fun p => wpParam p.1 p.2)

/-- Dict argument of `RouteRetriever._run`, with `none` modelling an absent
key (the source reads both keys with `dict.get` defaults). -/
structure RouteInput : Type where
  locations : Option (List (List Char))
  transportation_mode : Option (List Char)

/-- Embedding of `RouteRetriever._run` (src/chatTools.py lines 168-174) up to
the request URL formed inside `get_route`: the mode defaults to the literal
'car' and is normalized by `detect_transportation_mode`, the locations
default to a single empty string. -/
def RouteRetriever_run_url (input_data : RouteInput) (key : List Char) : List Char :=
  get_route_url (input_data.locations.getD ["".toList])
    (detect_transportation_mode (input_data.transportation_mode.getD "car".toList)) key

/-- Whitespace as Python `str.strip` removes it (the ASCII cases). -/
def isPyWhitespace (c : Char) : Bool :=
  c == ' ' || c == '\t' || c == '\n' || c == '\r' || c == '\x0b' || c == '\x0c'

/-- Python `s.strip()`: drop whitespace at both ends. -/
def pyStrip (s : List Char) : List Char :=
  ((s.dropWhile isPyWhitespace).reverse.dropWhile isPyWhitespace).reverse

/-- Query preprocessing of `get_location_data` (src/chatTools.py lines
108-110): only when the query starts with `location=` is that marker removed
and the remainder stripped of surrounding whitespace; otherwise the query is
left exactly as given. -/
def location_preprocess (location : List Char) : List Char :=
  if startsWithL location "location=".toList then
    pyStrip (location.drop "location=".toList.length)
  else location

/-- Outbound provider call, recorded in dispatch order. -/
inductive OutCall : Type where
  | geocode (query : List Char)
  | placesSearch (ll : Int × Int) (radius : Nat)
  | placesTips (fsq_id : String)

/-- Geocoder result (geopy `Location`), coordinates idealized as integers. -/
structure GeoLocation : Type where
  latitude : Int
  longitude : Int

/-- Embedding of `get_location_data` (src/chatTools.py lines 99-122).  The
geocoding provider is an oracle from the preprocessed query to an optional
location; the rate-limited geocode call is recorded in the trace either way.
An empty result raises `Exception("Location not found. Please refine your
query.")`, which the `except` clause logs and re-raises, so the error reaches
the caller. -/
def get_location_data (geocode : List Char → Option GeoLocation)
    (location : List Char) : Except String GeoLocation × List OutCall :=
  match geocode (location_preprocess location) with
  | some location_details =>
    (Except.ok location_details, [OutCall.geocode (location_preprocess location)])
  | none =>
    (Except.error "Location not found. Please refine your query.",
     [OutCall.geocode (location_preprocess location)])

/-- Place record of the Foursquare search response. -/
structure Place : Type where
  name : String
  fsq_id : String

/-- Foursquare search response: HTTP status and `results` array. -/
structure FsqSearchResponse : Type where
  status_code : Nat
  results : List Place

/-- Foursquare tips response: HTTP status and the tip texts. -/
structure FsqTipsResponse : Type where
  status_code : Nat
  tips : List String

/-- Responses of the Foursquare endpoints, as an oracle: one search response
and one tips response per place id. -/
structure FsqOracle : Type where
  search : FsqSearchResponse
  tipsOf : String → FsqTipsResponse

/-- Collapse of a list of optional strings as Python's `'\n'.join` treats a
generator of them: any `None` element makes the join raise `TypeError`. -/
def sequenceOptions : List (Option String) → Option (List String)
  | [] => some []
  | none :: _ => none
  | some s :: rest => (sequenceOptions rest).map fun l => s :: l

/-- Embedding of `get_fsq_info_of_location` (src/chatTools.py lines 125-152).
With the credential absent the raised `ValueError` is caught and logged,
yielding Python `None` before any HTTP call; on a non-200 tips status the
raised exception is likewise swallowed, yielding `None` after the one tips
call; otherwise the description joins the tips with single spaces. -/
def get_fsq_info_of_location (fsq_api_key : Option String) (oracle : FsqOracle)
    (name : String) (fsq_id : String) : Option String × List OutCall :=
  match fsq_api_key with
  | none => (none, [])
  | some _ =>
    let response := oracle.tipsOf fsq_id
    if response.status_code ≠ 200 then (none, [OutCall.placesTips fsq_id])
    else (some (name ++ ": " ++ String.intercalate " " response.tips),
          [OutCall.placesTips fsq_id])

/-- Embedding of `get_places_of_interests` (src/chatTools.py lines 63-96).
Every exception raised inside is caught by the enclosing `except`, which
prints and falls through, so the function returns Python `None` instead of
failing: with the credential absent it returns `None` before any HTTP call;
on a non-200 search status it returns `None` after the one search call;
otherwise it joins the per-place descriptions with newlines (a `None`
description makes the join raise, also swallowed to `None`). -/
def get_places_of_interests (fsq_api_key : Option String) (oracle : FsqOracle)
    (latitude longitude : Int) (radius : Nat) : Option String × List OutCall :=
  match fsq_api_key with
  | none => (none, [])
  | some key =>
    if oracle.search.status_code ≠ 200 then
      (none, [OutCall.placesSearch (latitude, longitude) radius])
    else
      let infos := oracle.search.results.map fun place =>
        get_fsq_info_of_location (some key) oracle place.name place.fsq_id
      let calls := OutCall.placesSearch (latitude, longitude) radius
        :: (infos.map fun p => p.2).flatten
      match sequenceOptions (infos.map fun p => p.1) with
      | some descriptions => (some (String.intercalate "\n" descriptions), calls)
      | none => (none, calls)

/-- Search radius constant `RADIUS` (src/chatTools.py line 14). -/
def RADIUS : Nat := 100000

/-- Places tool envelope: the single `output` field, whose value is Python
`None` whenever `get_places_of_interests` swallowed an error. -/
structure PlacesEnvelope : Type where
  output : Option String

/-- Embedding of `PlacesOfInterestTool._run` (src/chatTools.py lines 40-52):
geocode the location (errors from `get_location_data` propagate out of the
tool), then wrap the `get_places_of_interests` result, queried with the fixed
`RADIUS`, in the envelope. -/
def PlacesOfInterestTool_run (fsq_api_key : Option String)
    (geocode : List Char → Option GeoLocation) (oracle : FsqOracle)
    (location : List Char) : Except String PlacesEnvelope × List OutCall :=
  match get_location_data geocode location with
  | (Except.error e, calls) => (Except.error e, calls)
  | (Except.ok location_data, calls) =>
    let p := get_places_of_interests fsq_api_key oracle
      location_data.latitude location_data.longitude RADIUS
    (Except.ok { output := p.1 }, calls ++ p.2)

/-- Geocoder oracle resolving every query to a fixed location. -/
def cGeo : List Char → Option GeoLocation := fun _ => some ⟨10, 20⟩

/-- Geocoder oracle with an empty result for every query. -/
def cGeoNone : List Char → Option GeoLocation := fun _ => none

/-- Foursquare oracle answering 200 with no results everywhere. -/
def cOracleOk : FsqOracle := ⟨⟨200, []⟩, fun _ => ⟨200, []⟩⟩

/-- Foursquare oracle whose search endpoint answers HTTP 500. -/
def cOracle500 : FsqOracle := ⟨⟨500, []⟩, fun _ => ⟨200, []⟩⟩

theorem dictGet_dictSet_same (kvs : List (String × PyVal)) (k : String) (v : PyVal) :
    dictGet (dictSet kvs k v) k = some v := by
  induction kvs with
  | nil => simp [dictGet, dictSet]
  | cons hd tl ih =>
    obtain ⟨k', v'⟩ := hd
    by_cases h : k' = k
    · simp [dictGet, dictSet, h]
    · simp [dictGet, dictSet, h, ih]

theorem dictGet_dictSet_other (kvs : List (String × PyVal)) (k k' : String) (v : PyVal)
    (h : k' ≠ k) : dictGet (dictSet kvs k v) k' = dictGet kvs k' := by
  have hne : ¬k = k' := fun e => h e.symm
  induction kvs with
  | nil => simp [dictGet, dictSet, hne]
  | cons hd tl ih =>
    obtain ⟨k₀, v₀⟩ := hd
    by_cases h₀ : k₀ = k
    · subst h₀
      simp [dictGet, dictSet, hne]
    · simp [dictGet, dictSet, h₀, ih]

/-- C1: an envelope that is a dict with a non-empty `geocode_points` list is
split by a single pass of the interceptor: exactly one new record holding that
coordinate list is appended to the session messages, and the returned
envelope has `geocode_points` blanked to `""` with `output` untouched. -/
theorem tool_end_strips_coordinates_once (messages : List PyVal)
    (kvs : List (String × PyVal)) (pts : List PyVal)
    (hget : dictGet kvs "geocode_points" = some (PyVal.list pts)) (hne : pts ≠ []) :
    (SimpleCallback.on_tool_end messages (PyVal.dict kvs)).1
        = messages ++ [PyVal.dict [("geocode_points", PyVal.list pts)]]
    ∧ (SimpleCallback.on_tool_end messages (PyVal.dict kvs)).2.get "geocode_points"
        = some (PyVal.str "")
    ∧ (SimpleCallback.on_tool_end messages (PyVal.dict kvs)).2.get "output"
        = (PyVal.dict kvs).get "output" := by
  have : ¬pts = [] := hne
  refine ⟨?_, ?_, ?_⟩ <;>
    simp [SimpleCallback.on_tool_end, hget, PyVal.isNone, PyVal.get,
      dictGet_dictSet_same, dictGet_dictSet_other kvs "geocode_points" "output" _ (by decide)]

/-- C1 witness: the spec's example envelope with coordinates [[1,2],[3,4]]. -/
theorem tool_end_strips_coordinates_once_witness :
    dictGet [("output", PyVal.str "x"),
        ("geocode_points", PyVal.list [PyVal.list [PyVal.int 1, PyVal.int 2],
          PyVal.list [PyVal.int 3, PyVal.int 4]])] "geocode_points"
      = some (PyVal.list [PyVal.list [PyVal.int 1, PyVal.int 2],
          PyVal.list [PyVal.int 3, PyVal.int 4]])
    ∧ ((SimpleCallback.on_tool_end []
        (PyVal.dict [("output", PyVal.str "x"),
          ("geocode_points", PyVal.list [PyVal.list [PyVal.int 1, PyVal.int 2],
            PyVal.list [PyVal.int 3, PyVal.int 4]])])).1
          = [] ++ [PyVal.dict [("geocode_points",
              PyVal.list [PyVal.list [PyVal.int 1, PyVal.int 2],
                PyVal.list [PyVal.int 3, PyVal.int 4]])]]
      ∧ (SimpleCallback.on_tool_end []
          (PyVal.dict [("output", PyVal.str "x"),
            ("geocode_points", PyVal.list [PyVal.list [PyVal.int 1, PyVal.int 2],
              PyVal.list [PyVal.int 3, PyVal.int 4]])])).2.get "geocode_points"
          = some (PyVal.str "")
      ∧ (SimpleCallback.on_tool_end []
          (PyVal.dict [("output", PyVal.str "x"),
            ("geocode_points", PyVal.list [PyVal.list [PyVal.int 1, PyVal.int 2],
              PyVal.list [PyVal.int 3, PyVal.int 4]])])).2.get "output"
          = (PyVal.dict [("output", PyVal.str "x"),
              ("geocode_points", PyVal.list [PyVal.list [PyVal.int 1, PyVal.int 2],
                PyVal.list [PyVal.int 3, PyVal.int 4]])]).get "output") :=
  ⟨rfl, tool_end_strips_coordinates_once [] _ _ rfl (List.cons_ne_nil _ _)⟩

/-- C2 counterexample: an envelope whose `geocode_points` is present but an
EMPTY list is not passed through unchanged — the code tests `is not None`,
so the branch fires: one record is appended and the field is blanked. -/
theorem tool_end_empty_list_not_passthrough :
    (SimpleCallback.on_tool_end []
        (PyVal.dict [("output", PyVal.str "x"),
          ("geocode_points", PyVal.list [])])).1.length = 1
    ∧ (SimpleCallback.on_tool_end []
        (PyVal.dict [("output", PyVal.str "x"),
          ("geocode_points", PyVal.list [])])).2.get "geocode_points"
        = some (PyVal.str "") :=
  ⟨rfl, rfl⟩

/-- C2 amended: when the envelope carries no `geocode_points` value at all —
it is not a dict, or the key is absent, or the key maps to `None` — the
interceptor appends nothing and returns the event unchanged. -/
theorem tool_end_passthrough_without_points (messages : List PyVal) (output : PyVal)
    (h : output.get "geocode_points" = none
        ∨ output.get "geocode_points" = some PyVal.pynone) :
    SimpleCallback.on_tool_end messages output = (messages, output) := by
  match output with
  | PyVal.str s => rfl
  | PyVal.int n => rfl
  | PyVal.pynone => rfl
  | PyVal.list xs => rfl
  | PyVal.dict kvs =>
    simp only [PyVal.get] at h
    rcases h with h | h <;> simp [SimpleCallback.on_tool_end, h, PyVal.isNone]

/-- C2 amended witness: the spec's `(output := "text")` envelope without a
`geocode_points` key passes through unchanged. -/
theorem tool_end_passthrough_without_points_witness :
    ((PyVal.dict [("output", PyVal.str "text")]).get "geocode_points" = none
      ∨ (PyVal.dict [("output", PyVal.str "text")]).get "geocode_points"
          = some PyVal.pynone)
    ∧ SimpleCallback.on_tool_end [] (PyVal.dict [("output", PyVal.str "text")])
        = ([], PyVal.dict [("output", PyVal.str "text")]) :=
  ⟨Or.inl rfl, tool_end_passthrough_without_points [] _ (Or.inl rfl)⟩

/-- C3: for every successful route extraction, the instruction list and the
coordinate list have one entry per itinerary item (hence equal lengths) and
are index-aligned: the i-th instruction is the "- "-prefixed text of the
i-th provider step and the i-th coordinate pair is that step's maneuver
point; the returned envelope carries exactly the extracted coordinate list. -/
theorem route_instructions_coordinates_aligned (items : List ItineraryItem) :
    (extractItinerary items).1.length = (extractItinerary items).2.length
    ∧ (extractItinerary items).1.length = items.length
    ∧ (get_route_success items).geocode_points = (extractItinerary items).2
    ∧ ∀ (i : Nat) (item : ItineraryItem), items[i]? = some item →
        (extractItinerary items).1[i]? = some ("- " ++ item.instruction)
        ∧ (extractItinerary items).2[i]? = some item.maneuverPoint := by
  induction items with
  | nil =>
    refine ⟨rfl, rfl, rfl, ?_⟩
    intro i item h
    simp at h
  | cons hd tl ih =>
    obtain ⟨h1, h2, -, h4⟩ := ih
    refine ⟨?_, ?_, rfl, ?_⟩
    · simpa [extractItinerary] using h1
    · simpa [extractItinerary] using h2
    · intro i item h
      cases i with
      | zero =>
        simp only [List.getElem?_cons_zero, Option.some.injEq] at h
        subst h
        constructor <;> simp [extractItinerary]
      | succ j =>
        simp only [List.getElem?_cons_succ] at h
        simpa [extractItinerary] using h4 j item h

/-- C3 witness: a concrete two-step itinerary, checked at index 0. -/
theorem route_instructions_coordinates_aligned_witness :
    ([⟨"Turn left", [1, 2]⟩, ⟨"Arrive", [3, 4]⟩] : List ItineraryItem)[0]?
        = some ⟨"Turn left", [1, 2]⟩
    ∧ ((extractItinerary [⟨"Turn left", [1, 2]⟩, ⟨"Arrive", [3, 4]⟩]).1[0]?
          = some ("- " ++ "Turn left")
      ∧ (extractItinerary [⟨"Turn left", [1, 2]⟩, ⟨"Arrive", [3, 4]⟩]).2[0]?
          = some ([1, 2] : List Int)) :=
  ⟨rfl, (route_instructions_coordinates_aligned
      [⟨"Turn left", [1, 2]⟩, ⟨"Arrive", [3, 4]⟩]).2.2.2 0 ⟨"Turn left", [1, 2]⟩ rfl⟩

/-- C4: transport-mode normalization is a pure, case-insensitive substring
match evaluated in fixed priority order (foot/walk, then cycle, then
public/bus/train/transit, else Driving), and the spec's five examples
evaluate as stated. -/
theorem detect_mode_priority_and_examples :
    detect_transportation_mode "I want to WALK there".toList = "Walking".toList
    ∧ detect_transportation_mode "by bicycle".toList = "bicycle".toList
    ∧ detect_transportation_mode "take the bus".toList = "Transit".toList
    ∧ detect_transportation_mode "drive".toList = "Driving".toList
    ∧ detect_transportation_mode "".toList = "Driving".toList
    ∧ ∀ s,
        ((containsL (s.map Char.toLower) "foot".toList
            || containsL (s.map Char.toLower) "walk".toList) = true →
          detect_transportation_mode s = "Walking".toList)
        ∧ ((containsL (s.map Char.toLower) "foot".toList
              || containsL (s.map Char.toLower) "walk".toList) = false →
            containsL (s.map Char.toLower) "cycle".toList = true →
          detect_transportation_mode s = "bicycle".toList)
        ∧ ((containsL (s.map Char.toLower) "foot".toList
              || containsL (s.map Char.toLower) "walk".toList) = false →
            containsL (s.map Char.toLower) "cycle".toList = false →
            (containsL (s.map Char.toLower) "public".toList
              || containsL (s.map Char.toLower) "bus".toList
              || containsL (s.map Char.toLower) "train".toList
              || containsL (s.map Char.toLower) "transit".toList) = true →
          detect_transportation_mode s = "Transit".toList)
        ∧ ((containsL (s.map Char.toLower) "foot".toList
              || containsL (s.map Char.toLower) "walk".toList) = false →
            containsL (s.map Char.toLower) "cycle".toList = false →
            (containsL (s.map Char.toLower) "public".toList
              || containsL (s.map Char.toLower) "bus".toList
              || containsL (s.map Char.toLower) "train".toList
              || containsL (s.map Char.toLower) "transit".toList) = false →
          detect_transportation_mode s = "Driving".toList) := by
  refine ⟨by decide, by decide, by decide, by decide, by decide, ?_⟩
  intro s
  refine ⟨?_, ?_, ?_, ?_⟩
  · intro h1
    simp at h1
    simp [detect_transportation_mode, h1]
  · intro h1 h2
    simp at h1 h2
    simp [detect_transportation_mode, h1, h2]
  · intro h1 h2 h3
    simp at h1 h2 h3
    simp [detect_transportation_mode, h1, h2, h3]
  · intro h1 h2 h3
    simp at h1 h2 h3
    simp [detect_transportation_mode, h1, h2, h3]

/-- C4 witness: the Transit branch applied at the concrete input
"take the bus", discharging the ordered-priority hypotheses. -/
theorem detect_mode_priority_and_examples_witness :
    detect_transportation_mode "take the bus".toList = "Transit".toList :=
  (detect_mode_priority_and_examples.2.2.2.2.2 "take the bus".toList).2.2.1
    (by decide) (by decide) (by decide)

theorem joinAmp_cons : ∀ (xs : List (List Char)) (x : List Char),
    joinAmp (x :: xs) = x ++ (xs.map fun y => '&' :: y).flatten := by
  intro xs
  induction xs with
  | nil => intro x; simp [joinAmp]
  | cons y ys ih => intro x; simp [joinAmp, ih y]

theorem addWaypoints_succ (locations : List (List Char)) : ∀ (i : Nat) (url : List Char),
    addWaypoints (i + 1) url locations
      = url ++ ((List.enumFrom (i + 1) locations).map fun p => '&' :: wpParam p.1 p.2).flatten := by
  induction locations with
  | nil => intro i url; simp [addWaypoints, List.enumFrom]
  | cons loc rest ih =>
    intro i url
    simp only [addWaypoints, List.enumFrom, List.map, List.flatten, Nat.succ_ne_zero, if_neg]
    rw [ih (i + 1)]
    simp [List.append_assoc]

/-- C5: the route URL places the normalized transport mode as the path
segment and each location URL-encoded as successive `wp.0`, `wp.1`, ...
parameters in input order, followed by the credential; on the spec's example
input the mode resolves to `bicycle` and the URL contains
`wp.0=Mumbai&wp.1=Pune`. -/
theorem route_url_waypoints_in_order :
    (∀ (locations : List (List Char)) (mode key : List Char),
      get_route_url locations mode key
        = "http://dev.virtualearth.net/REST/V1/Routes/".toList ++ mode ++ ['?']
          ++ waypointQuerySpec locations ++ "&key=".toList ++ key)
    ∧ get_route_url ["Mumbai".toList, "Pune".toList]
        (detect_transportation_mode "cycle".toList) "KEY".toList
      = "http://dev.virtualearth.net/REST/V1/Routes/bicycle?wp.0=Mumbai&wp.1=Pune&key=KEY".toList
    ∧ containsL
        (get_route_url ["Mumbai".toList, "Pune".toList]
          (detect_transportation_mode "cycle".toList) "KEY".toList)
        "wp.0=Mumbai&wp.1=Pune".toList = true := by
  refine ⟨?_, by decide, by decide⟩
  intro locations mode key
  cases locations with
  | nil => simp [get_route_url, addWaypoints, waypointQuerySpec, joinAmp]
  | cons loc rest =>
    simp only [get_route_url, addWaypoints, if_pos rfl]
    rw [addWaypoints_succ rest 0]
    simp only [waypointQuerySpec, List.enum, List.enumFrom, List.map]
    rw [joinAmp_cons]
    simp [List.map_map, Function.comp_def, List.append_assoc]

/-- C9: when the input dict lacks `transportation_mode` the mode defaults via
the literal 'car' to Driving; when it lacks `locations` the route is requested
with the single empty-string waypoint `['']`, still forming a URL. -/
theorem route_run_defaults :
    (∀ (input_data : RouteInput) (key : List Char),
        input_data.transportation_mode = none →
      RouteRetriever_run_url input_data key
        = get_route_url (input_data.locations.getD ["".toList]) "Driving".toList key)
    ∧ (∀ (input_data : RouteInput) (key : List Char), input_data.locations = none →
      RouteRetriever_run_url input_data key
        = get_route_url ["".toList]
            (detect_transportation_mode (input_data.transportation_mode.getD "car".toList))
            key)
    ∧ RouteRetriever_run_url ⟨none, none⟩ "KEY".toList
        = "http://dev.virtualearth.net/REST/V1/Routes/Driving?wp.0=&key=KEY".toList := by
  refine ⟨?_, ?_, by decide⟩
  · intro input_data key h
    have hcar : detect_transportation_mode ['c', 'a', 'r'] = ['D', 'r', 'i', 'v', 'i', 'n', 'g'] := by
      decide
    simp [RouteRetriever_run_url, h, hcar]
  · intro input_data key h
    simp [RouteRetriever_run_url, h]

/-- C9 witness: a concrete input dict carrying only `locations`. -/
theorem route_run_defaults_witness :
    (RouteInput.mk (some ["Goa".toList]) none).transportation_mode = none
    ∧ RouteRetriever_run_url (RouteInput.mk (some ["Goa".toList]) none) "KEY".toList
        = get_route_url ((RouteInput.mk (some ["Goa".toList]) none).locations.getD ["".toList])
            "Driving".toList "KEY".toList :=
  ⟨rfl, route_run_defaults.1 (RouteInput.mk (some ["Goa".toList]) none) "KEY".toList rfl⟩

theorem startsWithL_append : ∀ (p s : List Char), startsWithL (p ++ s) p = true := by
  intro p
  induction p with
  | nil => intro s; cases s <;> rfl
  | cons c cs ih => intro s; simp [startsWithL, ih s]

/-- C6 counterexample: with `FSQ_API_KEY` unset but the geocoder resolving
"Paris", invoking the places tool does NOT fail — it returns a normal
envelope whose output is Python `None` — and one outbound call (the
geocoding lookup) is still issued. -/
theorem places_missing_key_returns_normal_envelope :
    PlacesOfInterestTool_run none cGeo cOracleOk "Paris".toList
      = (Except.ok { output := none }, [OutCall.geocode "Paris".toList]) := rfl

/-- C6 amended: with `FSQ_API_KEY` unset, `get_places_of_interests` raises
its missing-credential `ValueError` before any places-provider call — so
zero such calls are issued — but catches and logs it, returning `None`; the
tool still performs the geocoding lookup and returns a normal envelope with
`output = None` instead of surfacing a failure. -/
theorem places_missing_key_swallowed (geocode : List Char → Option GeoLocation)
    (oracle : FsqOracle) (location : List Char) (location_data : GeoLocation)
    (latitude longitude : Int) (radius : Nat)
    (h : geocode (location_preprocess location) = some location_data) :
    get_places_of_interests none oracle latitude longitude radius = (none, [])
    ∧ PlacesOfInterestTool_run none geocode oracle location
        = (Except.ok { output := none },
           [OutCall.geocode (location_preprocess location)]) := by
  refine ⟨rfl, ?_⟩
  simp [PlacesOfInterestTool_run, get_location_data, h, get_places_of_interests]

/-- C6 amended witness: the unset-credential scenario at a concrete geocoder
and oracle. -/
theorem places_missing_key_swallowed_witness :
    cGeo (location_preprocess "Paris".toList) = some ⟨10, 20⟩
    ∧ (get_places_of_interests none cOracleOk 10 20 100000 = (none, [])
      ∧ PlacesOfInterestTool_run none cGeo cOracleOk "Paris".toList
          = (Except.ok { output := none },
             [OutCall.geocode (location_preprocess "Paris".toList)])) :=
  ⟨rfl, places_missing_key_swallowed cGeo cOracleOk "Paris".toList ⟨10, 20⟩ 10 20 100000 rfl⟩

/-- C7 counterexample: with the search endpoint answering HTTP 500, the
places tool does NOT surface a failed tool result — it returns a normal
envelope whose output is Python `None`. -/
theorem places_http_error_returns_normal_envelope :
    PlacesOfInterestTool_run (some "KEY") cGeo cOracle500 "Paris".toList
      = (Except.ok { output := none },
         [OutCall.geocode "Paris".toList, OutCall.placesSearch (10, 20) 100000]) := rfl

/-- C7 amended: on a non-success places-search HTTP status the raised
exception is caught and logged inside `get_places_of_interests`, which
returns Python `None` after the one search call and issues no tips calls;
the tool then wraps that `None` in a normal envelope. -/
theorem places_http_error_swallowed (key : String) (oracle : FsqOracle)
    (latitude longitude : Int) (radius : Nat)
    (h : oracle.search.status_code ≠ 200) :
    get_places_of_interests (some key) oracle latitude longitude radius
      = (none, [OutCall.placesSearch (latitude, longitude) radius]) := by
  simp [get_places_of_interests, h]

/-- C7 amended witness: the HTTP-500 search oracle at concrete coordinates. -/
theorem places_http_error_swallowed_witness :
    cOracle500.search.status_code ≠ 200
    ∧ get_places_of_interests (some "KEY") cOracle500 10 20 100000
        = (none, [OutCall.placesSearch (10, 20) 100000]) :=
  ⟨by decide, places_http_error_swallowed "KEY" cOracle500 10 20 100000 (by decide)⟩

/-- C8 counterexample: on an empty geocoder result the error raised by
`get_location_data` has the fixed message "Location not found. Please refine
your query.", which does not contain the original query string. -/
theorem location_not_found_message_lacks_query :
    (get_location_data cGeoNone "Atlantis".toList).1
        = Except.error "Location not found. Please refine your query."
    ∧ containsL "Location not found. Please refine your query.".toList
        "Atlantis".toList = false :=
  ⟨rfl, by decide⟩

/-- C8 amended: an empty or unresolvable geocoder result makes
`get_location_data` fail with the fixed message "Location not found. Please
refine your query.", logged and re-raised to the caller; the message does not
carry the query string. -/
theorem location_not_found_error_propagates
    (geocode : List Char → Option GeoLocation) (location : List Char)
    (h : geocode (location_preprocess location) = none) :
    get_location_data geocode location
      = (Except.error "Location not found. Please refine your query.",
         [OutCall.geocode (location_preprocess location)]) := by
  simp [get_location_data, h]

/-- C8 amended witness: the always-empty geocoder at the query "Atlantis". -/
theorem location_not_found_error_propagates_witness :
    cGeoNone (location_preprocess "Atlantis".toList) = none
    ∧ get_location_data cGeoNone "Atlantis".toList
        = (Except.error "Location not found. Please refine your query.",
           [OutCall.geocode (location_preprocess "Atlantis".toList)]) :=
  ⟨rfl, location_not_found_error_propagates cGeoNone "Atlantis".toList rfl⟩

/-- C10: surrounding whitespace is stripped only behind a `location=` marker:
with the marker the remainder is trimmed before geocoding, without it the
query reaches the geocoding provider verbatim (the trace records the exact
string passed on), as the two concrete examples show. -/
theorem location_strip_only_with_marker :
    (∀ s : List Char, location_preprocess ("location=".toList ++ s) = pyStrip s)
    ∧ (∀ s : List Char, startsWithL s "location=".toList = false →
        location_preprocess s = s)
    ∧ (∀ (geocode : List Char → Option GeoLocation) (s : List Char),
        (get_location_data geocode s).2 = [OutCall.geocode (location_preprocess s)])
    ∧ location_preprocess "location=  Goa  ".toList = "Goa".toList
    ∧ location_preprocess "  Goa  ".toList = "  Goa  ".toList := by
  refine ⟨?_, ?_, ?_, by decide, by decide⟩
  · intro s
    unfold location_preprocess
    rw [if_pos (startsWithL_append "location=".toList s), List.drop_left]
  · intro s h
    simp at h
    simp [location_preprocess, h]
  · intro geocode s
    cases hg : geocode (location_preprocess s) <;> simp [get_location_data, hg]

/-- C10 witness: the no-marker branch applied at the concrete query
"  Goa  ". -/
theorem location_strip_only_with_marker_witness :
    startsWithL "  Goa  ".toList "location=".toList = false
    ∧ location_preprocess "  Goa  ".toList = "  Goa  ".toList :=
  ⟨by decide, location_strip_only_with_marker.2.1 "  Goa  ".toList (by decide)⟩
